import Mathlib

/-!
Verification development for the vmclone transaction core
(vmclone/transaction.py).  The Python module is shallowly embedded:

* XML disk nodes and the built snapshot document become Lean structures
  carrying exactly the attributes the code reads or writes;
* the mutable VMTransaction object becomes a structure threaded through
  the operations, each of which returns the post-state together with the
  exception it raises, if any;
* calls into libvirt and the filesystem are resolved through explicit
  environment records supplying the outcome of every external call;
* Python path manipulation (os.path.join / dirname / basename / splitext
  on POSIX) is reimplemented over character lists.
-/

/-! ## Python path helpers (posixpath semantics) -/

/-- Whether the first character of a string equals the given character. -/
def headIs (s : String) (c : Char) : Bool :=
  match s.data with
  | [] => false
  | d :: _ => d = c

/-- Whether the last character of a string equals the given character. -/
def lastIs (s : String) (c : Char) : Bool :=
  match s.data.reverse with
  | [] => false
  | d :: _ => d = c

/-- os.path.join for exactly two components, POSIX semantics. -/
def pyJoin (a b : String) : String :=
  if headIs b '/' then b
  else if a = "" ∨ lastIs a '/' then a ++ b
  else a ++ "/" ++ b

/-- os.path.basename: the part after the last slash. -/
def pyBasename (p : String) : String :=
  String.mk ((p.data.reverse.takeWhile (fun c => c ≠ '/')).reverse)

/-- Drop trailing slashes from a character list (str.rstrip of the separator). -/
def stripTrailingSlashes (l : List Char) : List Char :=
  (l.reverse.dropWhile (fun c => c = '/')).reverse

/-- os.path.dirname: everything before the last slash, with trailing slashes
stripped unless the head is all slashes. -/
def pyDirname (p : String) : String :=
  let head := (p.data.reverse.dropWhile (fun c => c ≠ '/')).reverse
  if head = [] then ""
  else if head.all (fun c => c = '/') then String.mk head
  else String.mk (stripTrailingSlashes head)

/-- os.path.splitext: split off the extension at the last dot of the basename,
unless every character of the basename before that dot is itself a dot. -/
def pySplitext (p : String) : String × String :=
  let head := (p.data.reverse.dropWhile (fun c => c ≠ '/')).reverse
  let b := (p.data.reverse.takeWhile (fun c => c ≠ '/')).reverse
  if b.contains '.' then
    let extRev := b.reverse.takeWhile (fun c => c ≠ '.')
    let stem := (b.reverse.drop (extRev.length + 1)).reverse
    if stem.all (fun c => c = '.') then (p, "")
    else (String.mk (head ++ stem), String.mk ('.' :: extRev.reverse))
  else (p, "")

/-! ## Data model: XML nodes as structures -/

/-- A domain-XML disk element, carrying exactly the attributes and child
elements the Python code queries through xpath.  String-valued xpath queries
yield the empty string when the attribute is absent. -/
structure DiskNode where
  target_dev : String
  snapshot : String
  readonly : Bool
  shareable : Bool
  transient : Bool
  driver_name : String
  driver_type : String
  device : String
  type_ : String
  source_file : String
  source_block : String
deriving DecidableEq

/-- The parsed domain XML: the name elements (each with optional text) and
the devices/disk elements, in document order. -/
structure DomainX where
  names : List (Option String)
  disks : List DiskNode
deriving DecidableEq

/-- The memory element of the snapshot document built by
_prepare_snapshot_xml. -/
structure MemoryElement where
  snapshot : String
  file : Option String
deriving DecidableEq

/-- A disk element of the snapshot document built by _prepare_snapshot_xml. -/
structure SnapDiskElement where
  name : String
  snapshot : String
  source_file : String
  driver_type : String
deriving DecidableEq

/-- The domainsnapshot document built by _prepare_snapshot_xml. -/
structure SnapshotXmlTree where
  name : String
  description : String
  memory : MemoryElement
  disks : List SnapDiskElement
deriving DecidableEq

/-- The SnapshotDisk namedtuple exposed through the snapshot_disks accessor. -/
structure SnapshotDisk where
  device : String
  source : String
  source_type : String
deriving DecidableEq

/-! ## Stages and errors -/

/-- Stages of a transaction, from transaction.py.  FAILED carries integer
value -1 in the source; the order is captured by toInt below. -/
inductive TransactionStage where
  | FAILED
  | UNINITIALIZED
  | INITIALIZED
  | PREPARED
  | BEGUN
  | COMMITTING
  | FINISHED
deriving DecidableEq

/-- Integer value of each stage, as declared in the IntEnum. -/
def TransactionStage.toInt : TransactionStage → Int
  | .FAILED => -1
  | .UNINITIALIZED => 0
  | .INITIALIZED => 1
  | .PREPARED => 2
  | .BEGUN => 3
  | .COMMITTING => 4
  | .FINISHED => 5

/-- The Python exceptions the embedded code can raise.  libvirt provider
errors and OSError causes are abstracted to numeric codes. -/
inductive PyError where
  | badStage (expected actual : TransactionStage)
  | badStageBetween (actual lo hi : TransactionStage)
  | typeError (msg : String)
  | indexError
  | attributeError
  | unboundLocal
  | libvirt (code : Nat)
  | zeroDivision
  | runtimeCleanup (count : Nat) (firstCause : Nat)
deriving DecidableEq

/-! ## Default disk filter -/

/-- Translation of default_disk_filter from transaction.py. -/
def default_disk_filter (node : DiskNode) : Bool :=
  if node.snapshot = "no" ∨ node.readonly = true ∨ node.shareable = true ∨
      node.transient = true then
    false
  else if node.driver_name ≠ "qemu" then
    false
  else if node.driver_type ≠ "raw" ∧ node.driver_type ≠ "qcow2" then
    false
  else if node.device = "disk" ∧ (node.type_ = "file" ∨ node.type_ = "block") then
    true
  else
    false

/-! ## A mapM over Except, used for the fallible per-disk builders -/

/-- Map a fallible function over a list, stopping at the first error, like a
Python for loop whose body may raise. -/
def mapExcept {α β : Type} (f : α → Except PyError β) : List α → Except PyError (List β)
  | [] => Except.ok []
  | a :: as =>
    match f a with
    | Except.error e => Except.error e
    | Except.ok b =>
      match mapExcept f as with
      | Except.error e => Except.error e
      | Except.ok bs => Except.ok (b :: bs)

/-! ## libvirt flag constants consumed by the code -/

def VIR_DOMAIN_SNAPSHOT_CREATE_NO_METADATA : Nat := 4

def VIR_DOMAIN_SNAPSHOT_CREATE_DISK_ONLY : Nat := 16

def VIR_DOMAIN_SNAPSHOT_CREATE_QUIESCE : Nat := 64

def VIR_DOMAIN_SNAPSHOT_CREATE_ATOMIC : Nat := 128

def VIR_DOMAIN_BLOCK_COMMIT_SHALLOW : Nat := 1

def VIR_DOMAIN_BLOCK_COMMIT_ACTIVE : Nat := 4

def VIR_DOMAIN_BLOCK_JOB_ABORT_PIVOT : Nat := 2

/-- Whether every bit of flag g is set in f. -/
def hasFlag (f g : Nat) : Bool := f &&& g == g

/-! ## Snapshot descriptor construction (_prepare_snapshot / _prepare_snapshot_xml) -/

def truthy : Option String → Bool
  | none => false
  | some s => s ≠ ""

/-- Python str() of an optional string, as used by str.format: None renders
as the four characters of its repr. -/
def fmtOptStr : Option String → String
  | some s => s
  | none => "None"

/-- The memory element branch of _prepare_snapshot_xml. -/
def memoryElementOf (workdir : Option String) (disk_only : Bool) :
    Except PyError MemoryElement :=
  if disk_only then
    Except.ok { snapshot := "no", file := none }
  else if truthy workdir = false then
    Except.error (PyError.typeError "workdir is not set")
  else
    Except.ok { snapshot := "external", file := some (pyJoin (workdir.getD "") "memory.state") }

/-- The per-disk body of the loop in _prepare_snapshot_xml: compute the delta
file location and build the disk element. -/
def buildDiskElement (workdir : Option String) (domain_name : Option String)
    (node : DiskNode) : Except PyError SnapDiskElement :=
  let device_name := node.target_dev
  let source_type := node.type_
  if truthy workdir then
    let disk_workdir := workdir.getD ""
    let delta_basename := fmtOptStr domain_name ++ "-" ++ device_name ++ "-unmerged.qcow2"
    Except.ok { name := device_name, snapshot := "external",
                source_file := pyJoin disk_workdir delta_basename, driver_type := "qcow2" }
  else if source_type ≠ "file" then
    Except.error (PyError.typeError "No workdir is available to back up disk %s")
  else
    let source_file := node.source_file
    let disk_workdir := pyDirname source_file
    let basename := pyBasename source_file
    let filename := (pySplitext basename).1
    let delta_basename := filename ++ "-unmerged.qcow2"
    Except.ok { name := device_name, snapshot := "external",
                source_file := pyJoin disk_workdir delta_basename, driver_type := "qcow2" }

/-- Translation of _prepare_snapshot_xml: memory element, then the disk
elements in order, then the domainsnapshot root. -/
def prepareSnapshotXml (workdir : Option String) (disk_only : Bool)
    (domain_name : Option String) (disk_nodes : List DiskNode) :
    Except PyError SnapshotXmlTree :=
  match memoryElementOf workdir disk_only with
  | Except.error e => Except.error e
  | Except.ok mem =>
    match mapExcept (buildDiskElement workdir domain_name) disk_nodes with
    | Except.error e => Except.error e
    | Except.ok ds =>
      Except.ok { name := "vmclone", description := "vmclone", memory := mem, disks := ds }

/-- The flag computation of _prepare_snapshot. -/
def snapshotCreateFlags (disk_only quiesce : Bool) : Nat :=
  let flags := VIR_DOMAIN_SNAPSHOT_CREATE_NO_METADATA ||| VIR_DOMAIN_SNAPSHOT_CREATE_ATOMIC
  let flags := if disk_only then flags ||| VIR_DOMAIN_SNAPSHOT_CREATE_DISK_ONLY else flags
  if quiesce then flags ||| VIR_DOMAIN_SNAPSHOT_CREATE_QUIESCE else flags

/-! ## The transaction object -/

/-- The VMTransaction object: one field per Python instance attribute.  The
domain handle is abstracted to a numeric identifier; the raw XML strings are
identified with their parsed trees since the code never inspects the raw
text beyond parsing or reserializing it. -/
structure VMTransaction where
  _stage : TransactionStage
  _domain : Nat
  _workdir : Option String
  _disk_only : Bool
  _quiesce : Bool
  _disk_filter : Option (DiskNode → Bool)
  _domain_name : Option String
  _domain_xml : Option DomainX
  _snapshot_xml : Option SnapshotXmlTree
  _snapshot_flags : Nat
  _snapshot_disks_readonly : Option (List SnapshotDisk)
  _domain_xmltree : Option DomainX
  _snapshot_xmltree : Option SnapshotXmlTree
  _snapshot_disks : List DiskNode

/-- The constructor of VMTransaction, with the source's defaults applied by
callers explicitly. -/
def newTransaction (domain : Nat) (workdir : Option String) (disk_only : Bool)
    (quiesce : Bool) (disk_filter : Option (DiskNode → Bool)) : VMTransaction where
  _stage := TransactionStage.UNINITIALIZED
  _domain := domain
  _workdir := workdir
  _disk_only := disk_only
  _quiesce := quiesce
  _disk_filter := disk_filter
  _domain_name := none
  _domain_xml := none
  _snapshot_xml := none
  _snapshot_flags := 0
  _snapshot_disks_readonly := none
  _domain_xmltree := none
  _snapshot_xmltree := none
  _snapshot_disks := []

namespace VMTransaction

/-- The _check_stage guard: None on success, the raised error otherwise. -/
def check_stage (t : VMTransaction) (s : TransactionStage) : Option PyError :=
  if t._stage ≠ s then some (PyError.badStage s t._stage) else none

/-- The _check_stage_between guard with its default end bound. -/
def check_stage_between (t : VMTransaction) (start : TransactionStage)
    (stop : TransactionStage := TransactionStage.FINISHED) : Option PyError :=
  if t._stage.toInt < start.toInt ∨ stop.toInt < t._stage.toInt then
    some (PyError.badStageBetween t._stage start stop)
  else none

/-- Unguarded stage property. -/
def stage (t : VMTransaction) : TransactionStage := t._stage

/-- Unguarded domain property. -/
def domain (t : VMTransaction) : Nat := t._domain

/-- Unguarded workdir property. -/
def workdir (t : VMTransaction) : Option String := t._workdir

/-- Unguarded disk_only property. -/
def disk_only (t : VMTransaction) : Bool := t._disk_only

/-- Unguarded quiesce property. -/
def quiesce (t : VMTransaction) : Bool := t._quiesce

/-- Unguarded disk_filter getter. -/
def disk_filter (t : VMTransaction) : Option (DiskNode → Bool) := t._disk_filter

/-- Guarded domain_name accessor (requires INITIALIZED..FINISHED). -/
def domain_name (t : VMTransaction) : Except PyError (Option String) :=
  match check_stage_between t TransactionStage.INITIALIZED with
  | some e => Except.error e
  | none => Except.ok t._domain_name

/-- Guarded snapshot_xml accessor (requires PREPARED..FINISHED). -/
def snapshot_xml (t : VMTransaction) : Except PyError (Option SnapshotXmlTree) :=
  match check_stage_between t TransactionStage.PREPARED with
  | some e => Except.error e
  | none => Except.ok t._snapshot_xml

/-- Guarded snapshot_flags accessor (requires PREPARED..FINISHED). -/
def snapshot_flags (t : VMTransaction) : Except PyError Nat :=
  match check_stage_between t TransactionStage.PREPARED with
  | some e => Except.error e
  | none => Except.ok t._snapshot_flags

/-- The mapper closure inside the snapshot_disks accessor.  A source type
other than file or block leaves the local variable unbound in Python. -/
def snapDiskMapper (node : DiskNode) : Except PyError SnapshotDisk :=
  if node.type_ = "file" then
    Except.ok { device := node.target_dev, source := node.source_file, source_type := node.type_ }
  else if node.type_ = "block" then
    Except.ok { device := node.target_dev, source := node.source_block, source_type := node.type_ }
  else
    Except.error PyError.unboundLocal

/-- Guarded snapshot_disks accessor (requires PREPARED..FINISHED); the cached
tuple is served when present, otherwise the mapper runs over the selected
disk nodes. -/
def snapshot_disks (t : VMTransaction) : Except PyError (List SnapshotDisk) :=
  match check_stage_between t TransactionStage.PREPARED with
  | some e => Except.error e
  | none =>
    match t._snapshot_disks_readonly with
    | some r => Except.ok r
    | none => mapExcept snapDiskMapper t._snapshot_disks

/-- The disk_filter setter, guarded to stages UNINITIALIZED..INITIALIZED. -/
def set_disk_filter (t : VMTransaction) (f : Option (DiskNode → Bool)) :
    VMTransaction × Option PyError :=
  match check_stage_between t TransactionStage.UNINITIALIZED TransactionStage.INITIALIZED with
  | some e => (t, some e)
  | none => ({ t with _disk_filter := f }, none)

/-- The filter prepare() actually applies: the injected one when truthy,
else the default. -/
def effective_disk_filter (t : VMTransaction) : DiskNode → Bool :=
  match t._disk_filter with
  | some f => f
  | none => default_disk_filter

end VMTransaction

/-! ## External-call environments -/

/-- Environment of initialize(): the outcome of domain.XMLDesc(), already in
parsed form (a numeric code stands for a raised libvirt error). -/
structure InitEnv where
  xmlDesc : Except Nat DomainX

/-- Environment of begin(): the outcome of domain.snapshotCreateXML. -/
structure BeginEnv where
  snapshotCreate : Except Nat Unit

/-- One result of domain.blockJobInfo: a raised error, or the returned dict,
an empty dict being represented as none and a populated one by its cur and
end counters. -/
inductive PollResult where
  | err (code : Nat)
  | info (d : Option (Nat × Nat))
deriving DecidableEq

/-- The scripted outcomes of the external calls commit() makes for one
device: the blockCommit call, the successive blockJobInfo polls, and the
blockJobAbort call. -/
structure DeviceScript where
  commitRes : Except Nat Unit
  polls : List PollResult
  abortRes : Except Nat Unit

/-- Environment of commit(): liveness query outcome, per-device call
scripts, and per-path os.remove outcomes. -/
structure CommitEnv where
  isActive : Except Nat Bool
  script : String → DeviceScript
  removeRes : String → Except Nat Unit

/-! ## The stage-advancing operations -/

namespace VMTransaction

def initialize_ (t : VMTransaction) (env : InitEnv) : VMTransaction × Option PyError :=
  match check_stage t TransactionStage.UNINITIALIZED with
  | some e => (t, some e)
  | none =>
    match env.xmlDesc with
    | Except.error code => (t, some (PyError.libvirt code))
    | Except.ok dx =>
      let t1 := { t with _domain_xml := some dx, _domain_xmltree := some dx }
      match dx.names with
      | [] => (t1, some PyError.indexError)
      | n :: _ =>
        ({ t1 with _domain_name := n, _stage := TransactionStage.INITIALIZED }, none)

/-- Translation of _prepare_snapshot: build the snapshot document, then the
creation flags. -/
def prepareSnapshot (t : VMTransaction) (disk_nodes : List DiskNode) :
    Except PyError (SnapshotXmlTree × Nat) :=
  match prepareSnapshotXml t._workdir t._disk_only t._domain_name disk_nodes with
  | Except.error e => Except.error e
  | Except.ok tree => Except.ok (tree, snapshotCreateFlags t._disk_only t._quiesce)

/-- Translation of prepare(): filter the domain's disks, store the
selection, build the snapshot document and flags, then advance to
PREPARED.  The selection is stored before the fallible build, as in the
source. -/
def prepare (t : VMTransaction) : VMTransaction × Option PyError :=
  match check_stage t TransactionStage.INITIALIZED with
  | some e => (t, some e)
  | none =>
    match t._domain_xmltree with
    | none => (t, some PyError.attributeError)
    | some dx =>
      let selected := dx.disks.filter (effective_disk_filter t)
      let t1 := { t with _snapshot_disks := selected }
      match prepareSnapshot t1 selected with
      | Except.error e => (t1, some e)
      | Except.ok (tree, flags) =>
        ({ t1 with _snapshot_xmltree := some tree, _snapshot_flags := flags,
                   _snapshot_xml := some tree, _stage := TransactionStage.PREPARED }, none)

/-- Translation of begin(): create the snapshot; on success advance to
BEGUN, on any exception set FAILED and re-raise. -/
def begin (t : VMTransaction) (env : BeginEnv) : VMTransaction × Option PyError :=
  match check_stage t TransactionStage.PREPARED with
  | some e => (t, some e)
  | none =>
    match env.snapshotCreate with
    | Except.ok _ => ({ t with _stage := TransactionStage.BEGUN }, none)
    | Except.error code =>
      ({ t with _stage := TransactionStage.FAILED }, some (PyError.libvirt code))

end VMTransaction

/-! ## The commit-stage poll loop -/

/-- Outcome of processing one device inside the commit loop. -/
inductive DiskRes where
  | done (pivoted : Bool)
  | fail (e : PyError)
  | diverge
deriving DecidableEq

/-- Result of the poll loop together with the number of blockJobAbort calls
it issued. -/
structure PollOut where
  res : DiskRes
  aborts : Nat
deriving DecidableEq

def pollLoop (abortRes : Except Nat Unit) : List PollResult → PollOut
  | [] => { res := DiskRes.diverge, aborts := 0 }
  | p :: rest =>
    match p with
    | PollResult.err code => { res := DiskRes.fail (PyError.libvirt code), aborts := 0 }
    | PollResult.info none => { res := DiskRes.done false, aborts := 0 }
    | PollResult.info (some (cur, stop)) =>
      if cur = stop then
        match abortRes with
        | Except.ok _ => { res := DiskRes.done true, aborts := 1 }
        | Except.error code => { res := DiskRes.fail (PyError.libvirt code), aborts := 1 }
      else if stop = 0 then
        { res := DiskRes.fail PyError.zeroDivision, aborts := 0 }
      else
        pollLoop abortRes rest

/-- Processing of one device: the blockCommit call, then the poll loop. -/
def processDisk (sc : DeviceScript) : PollOut :=
  match sc.commitRes with
  | Except.error code => { res := DiskRes.fail (PyError.libvirt code), aborts := 0 }
  | Except.ok _ => pollLoop sc.abortRes sc.polls

/-- Outcome of the whole per-disk loop of commit(). -/
inductive CommitPhase where
  | done (files : List String)
  | failed (e : PyError)
  | diverge
deriving DecidableEq

def commitLoop (env : CommitEnv) : List SnapDiskElement → CommitPhase
  | [] => CommitPhase.done []
  | d :: rest =>
    match (processDisk (env.script d.name)).res with
    | DiskRes.fail e => CommitPhase.failed e
    | DiskRes.diverge => CommitPhase.diverge
    | DiskRes.done _ =>
      match commitLoop env rest with
      | CommitPhase.done fs => CommitPhase.done (d.source_file :: fs)
      | r => r

/-- The cleanup loop of commit(): attempt every deletion, collecting the
raised OSError codes in order. -/
def deleteFiles (removeRes : String → Except Nat Unit) : List String → List Nat
  | [] => []
  | f :: rest =>
    match removeRes f with
    | Except.ok _ => deleteFiles removeRes rest
    | Except.error code => code :: deleteFiles removeRes rest

namespace VMTransaction

/-- Translation of commit(): enter COMMITTING, query liveness, run the
per-disk loop, set FINISHED, then delete the recorded delta files and
aggregate any deletion failures.  Any exception inside the try block sets
FAILED and re-raises; a diverging poll loop yields no result at all. -/
def commit (t : VMTransaction) (env : CommitEnv) :
    Option (VMTransaction × Option PyError) :=
  match check_stage t TransactionStage.BEGUN with
  | some e => some (t, some e)
  | none =>
    let t1 := { t with _stage := TransactionStage.COMMITTING }
    match env.isActive with
    | Except.error code =>
      some ({ t1 with _stage := TransactionStage.FAILED }, some (PyError.libvirt code))
    | Except.ok _ =>
      match t._snapshot_xmltree with
      | none => some ({ t1 with _stage := TransactionStage.FAILED }, some PyError.attributeError)
      | some tree =>
        match commitLoop env tree.disks with
        | CommitPhase.diverge => none
        | CommitPhase.failed e =>
          some ({ t1 with _stage := TransactionStage.FAILED }, some e)
        | CommitPhase.done files =>
          let t2 := { t1 with _stage := TransactionStage.FINISHED }
          match deleteFiles env.removeRes files with
          | [] => some (t2, none)
          | e :: es =>
            some (t2, some (PyError.runtimeCleanup (e :: es).length e))

end VMTransaction

/-! ## Spec-side predicates over poll scripts -/

def pivotPoll (p : PollResult) : Prop := ∃ c, p = PollResult.info (some (c, c))

/-- A poll result that keeps the loop going: a present job with distinct
counters whose end counter is nonzero. -/
def contPoll (p : PollResult) : Prop :=
  ∃ c stop, p = PollResult.info (some (c, stop)) ∧ c ≠ stop ∧ stop ≠ 0

/-- The loop performs a poll that returns a present job with equal
counters: some script entry is a pivot poll and every entry before it keeps
the loop going. -/
def reachesPivot (polls : List PollResult) : Prop :=
  ∃ k p, polls.get? k = some p ∧ pivotPoll p ∧
    ∀ j, j < k → ∃ q, polls.get? j = some q ∧ contPoll q

/-! ## Concrete fixtures for witnesses -/

def tFailedW : VMTransaction :=
  { newTransaction 0 none true false none with _stage := TransactionStage.FAILED }

/-- A trivial initialize environment. -/
def ieW : InitEnv := { xmlDesc := Except.ok { names := [some "vm1"], disks := [] } }

/-- A trivial begin environment. -/
def beW : BeginEnv := { snapshotCreate := Except.ok () }

/-- A commit environment whose every call succeeds and whose single poll
reports no job. -/
def ceW : CommitEnv where
  isActive := Except.ok true
  script := fun _ =>
    { commitRes := Except.ok (), polls := [PollResult.info none], abortRes := Except.ok () }
  removeRes := fun _ => Except.ok ()

def gFilterC9 : DiskNode → Bool := fun _ => true

/-- A fresh transaction already advanced to INITIALIZED. -/
def tInitializedC9 : VMTransaction :=
  { newTransaction 0 none true false none with _stage := TransactionStage.INITIALIZED }

/-- A snapshot disk element fixture. -/
def dElemW : SnapDiskElement :=
  { name := "vda", snapshot := "external", source_file := "/w/vm1-vda-unmerged.qcow2",
    driver_type := "qcow2" }

/-- A snapshot document fixture with a single disk. -/
def treeW : SnapshotXmlTree :=
  { name := "vmclone", description := "vmclone",
    memory := { snapshot := "no", file := none }, disks := [dElemW] }

/-- A transaction fixture in stage PREPARED. -/
def tPreparedW : VMTransaction :=
  { newTransaction 0 none true false none with _stage := TransactionStage.PREPARED }

/-- A transaction fixture in stage BEGUN holding the snapshot document. -/
def tBegunW : VMTransaction :=
  { newTransaction 0 (some "/w") true false none with
      _stage := TransactionStage.BEGUN, _domain_name := some "vm1",
      _snapshot_xmltree := some treeW }

/-- A commit environment fixture whose blockCommit call fails with code 9. -/
def ceFailW : CommitEnv where
  isActive := Except.ok true
  script := fun _ =>
    { commitRes := Except.error 9, polls := [], abortRes := Except.ok () }
  removeRes := fun _ => Except.ok ()

/-- A transaction fixture at BEGUN whose single delta file fails to
delete. -/
def ceDelFailW : CommitEnv where
  isActive := Except.ok true
  script := fun _ =>
    { commitRes := Except.ok (), polls := [PollResult.info none], abortRes := Except.ok () }
  removeRes := fun _ => Except.error 13

/-- A fully eligible file-backed disk node fixture. -/
def nodeW : DiskNode :=
  { target_dev := "vda", snapshot := "", readonly := false, shareable := false,
    transient := false, driver_name := "qemu", driver_type := "qcow2", device := "disk",
    type_ := "file", source_file := "/data/vm1.qcow2", source_block := "" }

/-- A non-disk-only transaction fixture without a workdir, already
INITIALIZED over an empty disk list. -/
def tNoWorkdirW : VMTransaction :=
  { newTransaction 0 none false false none with
      _stage := TransactionStage.INITIALIZED, _domain_name := some "vm1",
      _domain_xmltree := some { names := [some "vm1"], disks := [] },
      _domain_xml := some { names := [some "vm1"], disks := [] } }

/-! ## Helper lemmas -/

theorem mapExcept_ok_forall2 {α β : Type} {f : α → Except PyError β} :
    ∀ {l : List α} {bs : List β}, mapExcept f l = Except.ok bs →
      List.Forall₂ (fun a b => f a = Except.ok b) l bs := by
  intro l
  induction l with
  | nil =>
    intro bs h
    simp only [mapExcept] at h
    cases h
    exact List.Forall₂.nil
  | cons a as ih =>
    intro bs h
    simp only [mapExcept] at h
    cases hfa : f a with
    | error e => rw [hfa] at h; cases h
    | ok b =>
      rw [hfa] at h
      cases hrest : mapExcept f as with
      | error e => rw [hrest] at h; cases h
      | ok bs2 =>
        rw [hrest] at h
        cases h
        exact List.Forall₂.cons hfa (ih hrest)

theorem mapExcept_error_of_mem {α β : Type} {f : α → Except PyError β} {l : List α}
    {a : α} (ha : a ∈ l) {e : PyError} (hf : f a = Except.error e) :
    ∃ e2, mapExcept f l = Except.error e2 := by
  induction l with
  | nil => cases ha
  | cons x xs ih =>
    cases ha with
    | head =>
      refine ⟨e, ?_⟩
      simp only [mapExcept, hf]
    | tail _ hmem =>
      cases hfx : f x with
      | error e3 => exact ⟨e3, by simp only [mapExcept, hfx]⟩
      | ok b =>
        obtain ⟨e2, h2⟩ := ih hmem
        exact ⟨e2, by simp only [mapExcept, hfx, h2]⟩

theorem initialize_stage_cases (t : VMTransaction) (env : InitEnv) :
    (VMTransaction.initialize_ t env).1._stage = t._stage ∨
    (VMTransaction.initialize_ t env).1._stage = TransactionStage.INITIALIZED := by
  obtain ⟨xd⟩ := env
  unfold VMTransaction.initialize_ VMTransaction.check_stage
  split_ifs with h
  · left; rfl
  · cases xd with
    | error code => left; rfl
    | ok dx =>
      obtain ⟨names, disks⟩ := dx
      cases names with
      | nil => left; rfl
      | cons n rest => right; rfl

theorem prepare_stage_cases (t : VMTransaction) :
    (VMTransaction.prepare t).1._stage = t._stage ∨
    (VMTransaction.prepare t).1._stage = TransactionStage.PREPARED := by
  unfold VMTransaction.prepare
  split
  · left; rfl
  · split
    · left; rfl
    · simp only []
      split
      · left; rfl
      · right; rfl

theorem begin_stage_cases (t : VMTransaction) (env : BeginEnv) :
    (VMTransaction.begin t env).1._stage = t._stage ∨
    (VMTransaction.begin t env).1._stage = TransactionStage.BEGUN ∨
    ((VMTransaction.begin t env).1._stage = TransactionStage.FAILED ∧
      ∃ code, env.snapshotCreate = Except.error code) := by
  obtain ⟨sc⟩ := env
  unfold VMTransaction.begin VMTransaction.check_stage
  split_ifs with h
  · left; rfl
  · cases sc with
    | ok u => right; left; rfl
    | error code => right; right; exact ⟨rfl, code, rfl⟩

/-- A poll result that triggers the pivot branch: a present job whose
counters agree. -/

theorem reachesPivot_cons (p : PollResult) (rest : List PollResult) :
    reachesPivot (p :: rest) ↔ pivotPoll p ∨ (contPoll p ∧ reachesPivot rest) := by
  constructor
  · rintro ⟨k, q, hget, hq, hearlier⟩
    cases k with
    | zero =>
      rw [List.get?_cons_zero] at hget
      cases hget
      exact Or.inl hq
    | succ k2 =>
      refine Or.inr ⟨?_, k2, q, ?_, hq, ?_⟩
      · obtain ⟨q0, hq0, hc⟩ := hearlier 0 (Nat.succ_pos k2)
        rw [List.get?_cons_zero] at hq0
        cases hq0
        exact hc
      · rw [List.get?_cons_succ] at hget
        exact hget
      · intro j hj
        obtain ⟨q2, hq2, hc⟩ := hearlier (j + 1) (Nat.succ_lt_succ hj)
        rw [List.get?_cons_succ] at hq2
        exact ⟨q2, hq2, hc⟩
  · rintro (hp | ⟨hc, k, q, hget, hq, hearlier⟩)
    · exact ⟨0, p, rfl, hp, fun j hj => absurd hj (Nat.not_lt_zero j)⟩
    · refine ⟨k + 1, q, by rw [List.get?_cons_succ]; exact hget, hq, ?_⟩
      intro j hj
      cases j with
      | zero => exact ⟨p, rfl, hc⟩
      | succ j2 =>
        obtain ⟨q2, hq2, hc2⟩ := hearlier j2 (Nat.lt_of_succ_lt_succ hj)
        exact ⟨q2, by rw [List.get?_cons_succ]; exact hq2, hc2⟩

theorem pollLoop_aborts_iff (ar : Except Nat Unit) (polls : List PollResult) :
    (pollLoop ar polls).aborts = 1 ↔ reachesPivot polls := by
  induction polls with
  | nil =>
    constructor
    · intro h; simp [pollLoop] at h
    · rintro ⟨k, q, hget, _, _⟩
      cases k <;> exact Option.noConfusion hget
  | cons p rest ih =>
    rw [reachesPivot_cons]
    cases p with
    | err code =>
      constructor
      · intro h; simp [pollLoop] at h
      · rintro (⟨c, hp⟩ | ⟨⟨c, stop, hp, _, _⟩, _⟩) <;> cases hp
    | info d =>
      cases d with
      | none =>
        constructor
        · intro h; simp [pollLoop] at h
        · rintro (⟨c, hp⟩ | ⟨⟨c, stop, hp, _, _⟩, _⟩) <;> cases hp
      | some pr =>
        obtain ⟨c, stop⟩ := pr
        by_cases hce : c = stop
        · subst hce
          constructor
          · intro _
            exact Or.inl ⟨c, rfl⟩
          · intro _
            cases ar <;> simp [pollLoop]
        · by_cases hz : stop = 0
          · subst hz
            constructor
            · intro h
              simp [pollLoop, hce] at h
            · rintro (⟨c2, hp⟩ | ⟨⟨c2, stop2, hp, hne, hz2⟩, _⟩)
              · rw [PollResult.info.injEq, Option.some.injEq, Prod.mk.injEq] at hp
                exact absurd (hp.1.trans hp.2.symm) hce
              · rw [PollResult.info.injEq, Option.some.injEq, Prod.mk.injEq] at hp
                exact absurd hp.2.symm hz2
          · have hstep : pollLoop ar (PollResult.info (some (c, stop)) :: rest) =
                pollLoop ar rest := by
              simp [pollLoop, hce, hz]
            rw [hstep, ih]
            constructor
            · intro h
              exact Or.inr ⟨⟨c, stop, rfl, hce, hz⟩, h⟩
            · rintro (⟨c2, hp⟩ | ⟨_, h⟩)
              · rw [PollResult.info.injEq, Option.some.injEq, Prod.mk.injEq] at hp
                exact absurd (hp.1.trans hp.2.symm) hce
              · exact h

theorem pollLoop_aborts_le_one (ar : Except Nat Unit) (polls : List PollResult) :
    (pollLoop ar polls).aborts ≤ 1 := by
  induction polls with
  | nil => simp [pollLoop]
  | cons p rest ih =>
    cases p with
    | err code => simp [pollLoop]
    | info d =>
      cases d with
      | none => simp [pollLoop]
      | some pr =>
        obtain ⟨c, stop⟩ := pr
        by_cases hce : c = stop
        · subst hce
          cases ar <;> simp [pollLoop]
        · by_cases hz : stop = 0
          · subst hz; simp [pollLoop, hce]
          · simpa [pollLoop, hce, hz] using ih

theorem pollLoop_done_false (ar : Except Nat Unit) (polls : List PollResult) :
    (pollLoop ar polls).res = DiskRes.done false → (pollLoop ar polls).aborts = 0 := by
  induction polls with
  | nil => intro _; rfl
  | cons p rest ih =>
    cases p with
    | err code => intro _; rfl
    | info d =>
      cases d with
      | none => intro _; rfl
      | some pr =>
        obtain ⟨c, stop⟩ := pr
        by_cases hce : c = stop
        · subst hce
          cases ar <;> simp [pollLoop]
        · by_cases hz : stop = 0
          · subst hz; intro _; simp [pollLoop, hce]
          · intro h
            rw [show pollLoop ar (PollResult.info (some (c, stop)) :: rest) =
                  pollLoop ar rest from by simp [pollLoop, hce, hz]] at h ⊢
            exact ih h

theorem commitLoop_done_files (env : CommitEnv) :
    ∀ (ds : List SnapDiskElement) (files : List String),
      commitLoop env ds = CommitPhase.done files →
        files = ds.map (fun d => d.source_file) := by
  intro ds
  induction ds with
  | nil =>
    intro files h
    unfold commitLoop at h
    cases h
    rfl
  | cons d rest ih =>
    intro files h
    unfold commitLoop at h
    cases hpd : (processDisk (env.script d.name)).res with
    | fail e => rw [hpd] at h; cases h
    | diverge => rw [hpd] at h; cases h
    | done piv =>
      rw [hpd] at h
      cases hcl : commitLoop env rest with
      | done fs =>
        rw [hcl] at h
        cases h
        rw [List.map_cons, ← ih fs hcl]
      | failed e => rw [hcl] at h; cases h
      | diverge => rw [hcl] at h; cases h

theorem deleteFiles_filterMap (rr : String → Except Nat Unit) :
    ∀ files : List String,
      deleteFiles rr files = files.filterMap (fun f =>
        match rr f with
        | Except.error code => some code
        | Except.ok _ => none) := by
  intro files
  induction files with
  | nil => rfl
  | cons f rest ih =>
    unfold deleteFiles
    cases hf : rr f with
    | ok u => rw [List.filterMap_cons]; simp [hf, ih]
    | error code => rw [List.filterMap_cons]; simp [hf, ih]

theorem buildDiskElement_ok (wd dn : Option String) (node : DiskNode) (el : SnapDiskElement)
    (h : buildDiskElement wd dn node = Except.ok el) :
    el.driver_type = "qcow2" ∧ el.name = node.target_dev ∧ el.snapshot = "external" ∧
    (truthy wd = true →
      el.source_file = pyJoin (wd.getD "")
        (fmtOptStr dn ++ "-" ++ node.target_dev ++ "-unmerged.qcow2")) ∧
    (truthy wd = false →
      node.type_ = "file" ∧
      el.source_file = pyJoin (pyDirname node.source_file)
        ((pySplitext (pyBasename node.source_file)).1 ++ "-unmerged.qcow2")) := by
  unfold buildDiskElement at h
  by_cases hw : truthy wd = true
  · rw [if_pos hw] at h
    cases h
    exact ⟨rfl, rfl, rfl, fun _ => rfl,
           fun hf => by rw [hf] at hw; exact Bool.noConfusion hw⟩
  · rw [if_neg hw] at h
    by_cases ht : node.type_ ≠ "file"
    · rw [if_pos ht] at h
      cases h
    · rw [if_neg ht] at h
      cases h
      rw [not_not] at ht
      exact ⟨rfl, rfl, rfl, fun htr => absurd htr hw, fun _ => ⟨ht, rfl⟩⟩

theorem prepareSnapshotXml_disks (wd : Option String) (donly : Bool) (dn : Option String)
    (nodes : List DiskNode) (tree : SnapshotXmlTree)
    (h : prepareSnapshotXml wd donly dn nodes = Except.ok tree) :
    List.Forall₂ (fun node el => buildDiskElement wd dn node = Except.ok el)
      nodes tree.disks := by
  unfold prepareSnapshotXml at h
  cases hm : memoryElementOf wd donly with
  | error e => rw [hm] at h; cases h
  | ok mem =>
    rw [hm] at h
    cases hd : mapExcept (buildDiskElement wd dn) nodes with
    | error e => rw [hd] at h; cases h
    | ok ds =>
      rw [hd] at h
      cases h
      exact mapExcept_ok_forall2 hd

theorem prepare_raise_keeps_stage (t : VMTransaction) :
    (VMTransaction.prepare t).2.isSome = true →
      (VMTransaction.prepare t).1._stage = t._stage := by
  unfold VMTransaction.prepare
  split
  · intro _; rfl
  · split
    · intro _; rfl
    · simp only []
      split
      · intro _; rfl
      · intro hcontra; simp at hcontra

theorem prepare_error_eq (t : VMTransaction) (dx : DomainX) (e : PyError)
    (h : t._stage = TransactionStage.INITIALIZED) (hdx : t._domain_xmltree = some dx)
    (hps : VMTransaction.prepareSnapshot
        { t with _snapshot_disks := dx.disks.filter (VMTransaction.effective_disk_filter t) }
        (dx.disks.filter (VMTransaction.effective_disk_filter t)) = Except.error e) :
    (VMTransaction.prepare t).2 = some e := by
  unfold VMTransaction.prepare VMTransaction.check_stage
  rw [if_neg (by simp [h])]
  split
  · rename_i e2 hnone
    cases hnone
  · split
    · rename_i hnone
      rw [hnone] at hdx
      cases hdx
    · rename_i dx2 hsome
      rw [hdx] at hsome
      injection hsome with hdd
      subst hdd
      simp only []
      rw [hps]

theorem prepareSnapshot_no_workdir (t1 : VMTransaction) (nodes : List DiskNode)
    (hdo : t1._disk_only = false) (hwt : truthy t1._workdir = false) :
    VMTransaction.prepareSnapshot t1 nodes =
      Except.error (PyError.typeError "workdir is not set") := by
  unfold VMTransaction.prepareSnapshot prepareSnapshotXml memoryElementOf
  rw [hdo, hwt]
  simp

theorem prepareSnapshot_block_no_workdir (t1 : VMTransaction) (nodes : List DiskNode)
    (d : DiskNode) (hd : d ∈ nodes) (hwt : truthy t1._workdir = false)
    (hdf : d.type_ ≠ "file") :
    ∃ e, VMTransaction.prepareSnapshot t1 nodes = Except.error e := by
  have hbuild : buildDiskElement t1._workdir t1._domain_name d =
      Except.error (PyError.typeError "No workdir is available to back up disk %s") := by
    unfold buildDiskElement
    rw [if_neg (by simp [hwt]), if_pos hdf]
  obtain ⟨e2, h2⟩ := mapExcept_error_of_mem hd hbuild
  unfold VMTransaction.prepareSnapshot prepareSnapshotXml
  cases hm : memoryElementOf t1._workdir t1._disk_only with
  | error e => exact ⟨e, rfl⟩
  | ok mem => exact ⟨e2, by rw [h2]⟩

/-! ## C1: out-of-order stage-advancing operations -/

/-- C1: every stage-advancing operation called while the current stage is
not its required one (UNINITIALIZED, INITIALIZED, PREPARED, BEGUN
respectively) raises BadStageError naming the expected and actual stages
and returns the transaction completely unchanged; since FAILED differs from
all four required stages, every one of these operations raises in stage
FAILED, so FAILED is absorbing. -/

theorem stage_guard_c1 (t : VMTransaction) (ie : InitEnv) (be : BeginEnv) (ce : CommitEnv) :
    (t._stage ≠ TransactionStage.UNINITIALIZED →
      VMTransaction.initialize_ t ie =
        (t, some (PyError.badStage TransactionStage.UNINITIALIZED t._stage))) ∧
    (t._stage ≠ TransactionStage.INITIALIZED →
      VMTransaction.prepare t =
        (t, some (PyError.badStage TransactionStage.INITIALIZED t._stage))) ∧
    (t._stage ≠ TransactionStage.PREPARED →
      VMTransaction.begin t be =
        (t, some (PyError.badStage TransactionStage.PREPARED t._stage))) ∧
    (t._stage ≠ TransactionStage.BEGUN →
      VMTransaction.commit t ce =
        some (t, some (PyError.badStage TransactionStage.BEGUN t._stage))) := by
  refine ⟨fun h => ?_, fun h => ?_, fun h => ?_, fun h => ?_⟩
  · simp [VMTransaction.initialize_, VMTransaction.check_stage, h]
  · simp [VMTransaction.prepare, VMTransaction.check_stage, h]
  · simp [VMTransaction.begin, VMTransaction.check_stage, h]
  · simp [VMTransaction.commit, VMTransaction.check_stage, h]

/-- C1 witness: all four guards fire on a concrete FAILED transaction. -/
theorem stage_guard_c1_witness :
    VMTransaction.initialize_ tFailedW ieW =
      (tFailedW, some (PyError.badStage TransactionStage.UNINITIALIZED TransactionStage.FAILED)) ∧
    VMTransaction.prepare tFailedW =
      (tFailedW, some (PyError.badStage TransactionStage.INITIALIZED TransactionStage.FAILED)) ∧
    VMTransaction.begin tFailedW beW =
      (tFailedW, some (PyError.badStage TransactionStage.PREPARED TransactionStage.FAILED)) ∧
    VMTransaction.commit tFailedW ceW =
      some (tFailedW, some (PyError.badStage TransactionStage.BEGUN TransactionStage.FAILED)) :=
  ⟨(stage_guard_c1 tFailedW ieW beW ceW).1 (by decide),
   (stage_guard_c1 tFailedW ieW beW ceW).2.1 (by decide),
   (stage_guard_c1 tFailedW ieW beW ceW).2.2.1 (by decide),
   (stage_guard_c1 tFailedW ieW beW ceW).2.2.2 (by decide)⟩

/-! ## C2: when FAILED is entered -/

/-- C2: any failure of the snapshot-creation call inside begin(), and any
failure inside the committing work of commit() (the liveness query or the
per-disk block-commit and poll loop, before FINISHED is reached), leaves
the transaction in stage FAILED while the error propagates; and FAILED is
entered nowhere else: initialize() and prepare() can never move the stage
to FAILED, and begin() reaches FAILED only when the snapshot-creation call
failed. -/
theorem failed_entry_c2 :
    (∀ (t : VMTransaction) (code : Nat), t._stage = TransactionStage.PREPARED →
      VMTransaction.begin t { snapshotCreate := Except.error code } =
        ({ t with _stage := TransactionStage.FAILED }, some (PyError.libvirt code))) ∧
    (∀ (t : VMTransaction) (env : CommitEnv) (code : Nat), t._stage = TransactionStage.BEGUN →
      env.isActive = Except.error code →
      VMTransaction.commit t env =
        some ({ t with _stage := TransactionStage.FAILED }, some (PyError.libvirt code))) ∧
    (∀ (t : VMTransaction) (env : CommitEnv) (tree : SnapshotXmlTree) (b : Bool) (e : PyError),
      t._stage = TransactionStage.BEGUN → t._snapshot_xmltree = some tree →
      env.isActive = Except.ok b → commitLoop env tree.disks = CommitPhase.failed e →
      VMTransaction.commit t env =
        some ({ t with _stage := TransactionStage.FAILED }, some e)) ∧
    (∀ (t : VMTransaction) (env : InitEnv),
      (VMTransaction.initialize_ t env).1._stage = TransactionStage.FAILED →
      t._stage = TransactionStage.FAILED) ∧
    (∀ (t : VMTransaction),
      (VMTransaction.prepare t).1._stage = TransactionStage.FAILED →
      t._stage = TransactionStage.FAILED) ∧
    (∀ (t : VMTransaction) (env : BeginEnv),
      (VMTransaction.begin t env).1._stage = TransactionStage.FAILED →
      t._stage = TransactionStage.FAILED ∨ ∃ code, env.snapshotCreate = Except.error code) := by
  refine ⟨?_, ?_, ?_, ?_, ?_, ?_⟩
  · intro t code h
    simp [VMTransaction.begin, VMTransaction.check_stage, h]
  · intro t env code h hact
    simp [VMTransaction.commit, VMTransaction.check_stage, h, hact]
  · intro t env tree b e h htree hact hloop
    simp [VMTransaction.commit, VMTransaction.check_stage, h, htree, hact, hloop]
  · intro t env hf
    rcases initialize_stage_cases t env with h | h
    · exact h.symm.trans hf
    · exact absurd (h.symm.trans hf) (by decide)
  · intro t hf
    rcases prepare_stage_cases t with h | h
    · exact h.symm.trans hf
    · exact absurd (h.symm.trans hf) (by decide)
  · intro t env hf
    rcases begin_stage_cases t env with h | h | h
    · exact Or.inl (h.symm.trans hf)
    · exact absurd (h.symm.trans hf) (by decide)
    · exact Or.inr h.2

/-- C2 witness: a failing snapshot creation at PREPARED ends in FAILED, and
a failing block-commit call during commit at BEGUN ends in FAILED. -/
theorem failed_entry_c2_witness :
    VMTransaction.begin tPreparedW { snapshotCreate := Except.error 7 } =
      ({ tPreparedW with _stage := TransactionStage.FAILED }, some (PyError.libvirt 7)) ∧
    VMTransaction.commit tBegunW ceFailW =
      some ({ tBegunW with _stage := TransactionStage.FAILED }, some (PyError.libvirt 9)) :=
  ⟨failed_entry_c2.1 tPreparedW 7 rfl,
   failed_entry_c2.2.2.1 tBegunW ceFailW treeW true (PyError.libvirt 9) rfl rfl rfl rfl⟩

/-! ## C3: pivot discipline of the poll loop -/

/-- C3: in the commit-stage poll loop the pivoting blockJobAbort call is
issued at most once per device, and exactly once precisely when the loop
performs a poll reporting a present job with equal counters; a poll
reporting no job finishes the disk with zero abort calls; and whenever the
per-disk loop completes, every processed device's delta file path, in
order, is recorded for deletion. -/
theorem commit_poll_c3 :
    (∀ (ar : Except Nat Unit) (polls : List PollResult),
      (pollLoop ar polls).aborts ≤ 1) ∧
    (∀ (ar : Except Nat Unit) (polls : List PollResult),
      ((pollLoop ar polls).aborts = 1 ↔ reachesPivot polls)) ∧
    (∀ (ar : Except Nat Unit) (polls : List PollResult),
      (pollLoop ar polls).res = DiskRes.done false → (pollLoop ar polls).aborts = 0) ∧
    (∀ (env : CommitEnv) (ds : List SnapDiskElement) (files : List String),
      commitLoop env ds = CommitPhase.done files →
        files = ds.map (fun d => d.source_file)) :=
  ⟨pollLoop_aborts_le_one, pollLoop_aborts_iff, pollLoop_done_false, commitLoop_done_files⟩

/-- C3 witness: a no-job poll yields zero abort calls; a pivot poll yields
one; and a completed loop records the concrete delta path. -/
theorem commit_poll_c3_witness :
    (pollLoop (Except.ok ()) [PollResult.info none]).aborts = 0 ∧
    (pollLoop (Except.ok ()) [PollResult.info (some (5, 5))]).aborts = 1 ∧
    ["/w/vm1-vda-unmerged.qcow2"] = [dElemW].map (fun d => d.source_file) :=
  ⟨commit_poll_c3.2.2.1 (Except.ok ()) [PollResult.info none] rfl,
   (commit_poll_c3.2.1 (Except.ok ()) [PollResult.info (some (5, 5))]).mpr
     ⟨0, PollResult.info (some (5, 5)), rfl, ⟨5, rfl⟩,
      fun j hj => absurd hj (Nat.not_lt_zero j)⟩,
   commit_poll_c3.2.2.2 ceW [dElemW] ["/w/vm1-vda-unmerged.qcow2"] rfl⟩

/-! ## C4: delta file locations, delta format, and creation flags -/

/-- C4: in any successfully built snapshot document, every disk element
gets driver format qcow2 and the device's name; its delta path is the
workdir joined with domain-name dash device-name dash unmerged.qcow2 when a
working directory is configured, and otherwise the source's directory
joined with the source basename stripped of its extension plus
unmerged.qcow2, the source then necessarily being file-backed; the POSIX
join with a nonempty, non-slash-terminated left part and a relative right
part is exactly the slash-separated concatenation the claim spells out;
and the creation flags always contain no-metadata and atomic, contain
disk-only exactly when configured, and contain quiesce exactly when
configured. -/
theorem delta_paths_c4 :
    (∀ (wd : Option String) (donly : Bool) (dn : Option String) (nodes : List DiskNode)
        (tree : SnapshotXmlTree),
      prepareSnapshotXml wd donly dn nodes = Except.ok tree →
      List.Forall₂ (fun node el =>
        el.driver_type = "qcow2" ∧ el.name = node.target_dev ∧
        (truthy wd = true →
          el.source_file = pyJoin (wd.getD "")
            (fmtOptStr dn ++ "-" ++ node.target_dev ++ "-unmerged.qcow2")) ∧
        (truthy wd = false →
          node.type_ = "file" ∧
          el.source_file = pyJoin (pyDirname node.source_file)
            ((pySplitext (pyBasename node.source_file)).1 ++ "-unmerged.qcow2")))
        nodes tree.disks) ∧
    (∀ a b : String, a ≠ "" → lastIs a '/' = false → headIs b '/' = false →
      pyJoin a b = a ++ "/" ++ b) ∧
    (∀ donly q : Bool,
      hasFlag (snapshotCreateFlags donly q) VIR_DOMAIN_SNAPSHOT_CREATE_NO_METADATA = true ∧
      hasFlag (snapshotCreateFlags donly q) VIR_DOMAIN_SNAPSHOT_CREATE_ATOMIC = true ∧
      hasFlag (snapshotCreateFlags donly q) VIR_DOMAIN_SNAPSHOT_CREATE_DISK_ONLY = donly ∧
      hasFlag (snapshotCreateFlags donly q) VIR_DOMAIN_SNAPSHOT_CREATE_QUIESCE = q) := by
  refine ⟨?_, ?_, ?_⟩
  · intro wd donly dn nodes tree h
    refine (prepareSnapshotXml_disks wd donly dn nodes tree h).imp ?_
    intro node el hb
    obtain ⟨h1, h2, h3, h4, h5⟩ := buildDiskElement_ok wd dn node el hb
    exact ⟨h1, h2, h4, h5⟩
  · intro a b ha hla hhb
    unfold pyJoin
    rw [if_neg (by simp [hhb]), if_neg (by rw [not_or]; exact ⟨ha, by simp [hla]⟩)]
  · intro donly q
    cases donly <;> cases q <;> exact ⟨by decide, by decide, by decide, by decide⟩

/-- C4 witness: the concrete snapshot document built for one disk with a
configured workdir satisfies the per-disk property, the join rule yields
the literal slash-separated path, and the flags come out right for the
disk-only, no-quiesce configuration. -/
theorem delta_paths_c4_witness :
    List.Forall₂ (fun (node : DiskNode) (el : SnapDiskElement) =>
        el.driver_type = "qcow2" ∧ el.name = node.target_dev ∧
        (truthy (some "/w") = true →
          el.source_file = pyJoin ((some "/w").getD "")
            (fmtOptStr (some "vm1") ++ "-" ++ node.target_dev ++ "-unmerged.qcow2")) ∧
        (truthy (some "/w") = false →
          node.type_ = "file" ∧
          el.source_file = pyJoin (pyDirname node.source_file)
            ((pySplitext (pyBasename node.source_file)).1 ++ "-unmerged.qcow2")))
      [nodeW] treeW.disks ∧
    pyJoin "/w" "vm1-vda-unmerged.qcow2" = "/w/vm1-vda-unmerged.qcow2" ∧
    hasFlag (snapshotCreateFlags true false) VIR_DOMAIN_SNAPSHOT_CREATE_DISK_ONLY = true :=
  ⟨delta_paths_c4.1 (some "/w") true (some "vm1") [nodeW] treeW rfl,
   delta_paths_c4.2.1 "/w" "vm1-vda-unmerged.qcow2" (by decide) (by decide) (by decide),
   (delta_paths_c4.2.2 true false).2.2.1⟩

/-! ## C5: cleanup after a functionally successful commit -/

/-- C5: when the per-disk commit loop completes without error, commit sets
the stage to FINISHED before attempting any deletion and the stage stays
FINISHED whatever the deletions do; the deletion loop collects the raised
errors, one per failed deletion in order, instead of raising immediately;
with no failure commit returns silently, and with failures it raises a
single aggregate RuntimeError carrying the count of failed deletions and
chaining the first underlying cause. -/
theorem commit_cleanup_c5 (t : VMTransaction) (env : CommitEnv) (tree : SnapshotXmlTree)
    (b : Bool) (files : List String)
    (h : t._stage = TransactionStage.BEGUN) (htree : t._snapshot_xmltree = some tree)
    (hact : env.isActive = Except.ok b)
    (hloop : commitLoop env tree.disks = CommitPhase.done files) :
    (deleteFiles env.removeRes files = files.filterMap (fun f =>
      match env.removeRes f with
      | Except.error code => some code
      | Except.ok _ => none)) ∧
    VMTransaction.commit t env =
      some ({ t with _stage := TransactionStage.FINISHED },
        match deleteFiles env.removeRes files with
        | [] => none
        | code :: rest => some (PyError.runtimeCleanup (code :: rest).length code)) := by
  refine ⟨deleteFiles_filterMap env.removeRes files, ?_⟩
  unfold VMTransaction.commit VMTransaction.check_stage
  rw [if_neg (by simp [h]), hact, htree]
  simp only []
  rw [hloop]
  simp only []
  cases hdel : deleteFiles env.removeRes files with
  | nil => rfl
  | cons code rest => rfl

/-- C5 witness: a concrete commit whose loop succeeds but whose one
deletion fails ends FINISHED with an aggregate error counting one failure
and chaining its cause. -/
theorem commit_cleanup_c5_witness :
    VMTransaction.commit tBegunW ceDelFailW =
      some ({ tBegunW with _stage := TransactionStage.FINISHED },
        some (PyError.runtimeCleanup 1 13)) :=
  (commit_cleanup_c5 tBegunW ceDelFailW treeW true ["/w/vm1-vda-unmerged.qcow2"]
    rfl rfl rfl rfl).2

/-! ## C6: memory capture mode and synchronous configuration errors -/

/-- C6: a disk-only transaction's snapshot document always carries memory
mode no with no memory file; a non-disk-only one with a truthy workdir
carries memory mode external writing to workdir slash memory.state; a
non-disk-only transaction without a workdir makes prepare() raise the
workdir-is-not-set configuration error synchronously with the stage left
at INITIALIZED; and a selected non-file-backed disk without a workdir
likewise makes prepare() raise with the stage left at INITIALIZED, so in
both error situations PREPARED is never reached and FAILED is not
entered. -/
theorem memory_mode_c6 :
    (∀ (wd : Option String) (dn : Option String) (nodes : List DiskNode)
        (tree : SnapshotXmlTree),
      prepareSnapshotXml wd true dn nodes = Except.ok tree →
      tree.memory = { snapshot := "no", file := none }) ∧
    (∀ (wd : Option String) (dn : Option String) (nodes : List DiskNode)
        (tree : SnapshotXmlTree),
      truthy wd = true →
      prepareSnapshotXml wd false dn nodes = Except.ok tree →
      tree.memory = { snapshot := "external",
                      file := some (pyJoin (wd.getD "") "memory.state") }) ∧
    (∀ (t : VMTransaction) (dx : DomainX),
      t._stage = TransactionStage.INITIALIZED → t._domain_xmltree = some dx →
      t._disk_only = false → truthy t._workdir = false →
      (VMTransaction.prepare t).2 = some (PyError.typeError "workdir is not set") ∧
      (VMTransaction.prepare t).1._stage = TransactionStage.INITIALIZED) ∧
    (∀ (t : VMTransaction) (dx : DomainX) (d : DiskNode),
      t._stage = TransactionStage.INITIALIZED → t._domain_xmltree = some dx →
      truthy t._workdir = false → d ∈ dx.disks →
      VMTransaction.effective_disk_filter t d = true → d.type_ ≠ "file" →
      (VMTransaction.prepare t).2.isSome = true ∧
      (VMTransaction.prepare t).1._stage = TransactionStage.INITIALIZED) := by
  refine ⟨?_, ?_, ?_, ?_⟩
  · intro wd dn nodes tree h
    unfold prepareSnapshotXml at h
    rw [show memoryElementOf wd true = Except.ok { snapshot := "no", file := none } from rfl]
      at h
    cases hd : mapExcept (buildDiskElement wd dn) nodes with
    | error e => rw [hd] at h; cases h
    | ok ds => rw [hd] at h; cases h; rfl
  · intro wd dn nodes tree htr h
    have hmem : memoryElementOf wd false =
        Except.ok { snapshot := "external",
                    file := some (pyJoin (wd.getD "") "memory.state") } := by
      unfold memoryElementOf
      simp [htr]
    unfold prepareSnapshotXml at h
    rw [hmem] at h
    cases hd : mapExcept (buildDiskElement wd dn) nodes with
    | error e => rw [hd] at h; cases h
    | ok ds => rw [hd] at h; cases h; rfl
  · intro t dx h hdx hdo hwt
    have he := prepareSnapshot_no_workdir
      { t with _snapshot_disks := dx.disks.filter (VMTransaction.effective_disk_filter t) }
      (dx.disks.filter (VMTransaction.effective_disk_filter t)) hdo hwt
    have h2 := prepare_error_eq t dx _ h hdx he
    refine ⟨h2, ?_⟩
    rw [prepare_raise_keeps_stage t (by rw [h2]; rfl)]
    exact h
  · intro t dx d h hdx hwt hmem hfil hdf
    have hsel : d ∈ dx.disks.filter (VMTransaction.effective_disk_filter t) :=
      List.mem_filter.mpr ⟨hmem, hfil⟩
    obtain ⟨e, he⟩ := prepareSnapshot_block_no_workdir
      { t with _snapshot_disks := dx.disks.filter (VMTransaction.effective_disk_filter t) }
      (dx.disks.filter (VMTransaction.effective_disk_filter t)) d hsel hwt hdf
    have h2 := prepare_error_eq t dx e h hdx he
    refine ⟨by rw [h2]; rfl, ?_⟩
    rw [prepare_raise_keeps_stage t (by rw [h2]; rfl)]
    exact h

/-- C6 witness: the concrete non-disk-only, workdir-less transaction gets a
synchronous TypeError from prepare and stays INITIALIZED. -/
theorem memory_mode_c6_witness :
    (VMTransaction.prepare tNoWorkdirW).2 =
      some (PyError.typeError "workdir is not set") ∧
    (VMTransaction.prepare tNoWorkdirW).1._stage = TransactionStage.INITIALIZED :=
  memory_mode_c6.2.2.1 tNoWorkdirW { names := [some "vm1"], disks := [] } rfl rfl rfl rfl

/-! ## C7: the default disk selector -/

/-- C7: the default disk selector accepts a disk exactly when the snapshot
attribute is not the string no, none of the read-only, shareable and
transient flags is set, the driver name is qemu, the driver format is raw
or qcow2, the device kind is disk, and the source kind is file or block. -/

theorem default_filter_c7 (n : DiskNode) :
    default_disk_filter n = true ↔
      (n.snapshot ≠ "no" ∧ n.readonly = false ∧ n.shareable = false ∧ n.transient = false ∧
       n.driver_name = "qemu" ∧ (n.driver_type = "raw" ∨ n.driver_type = "qcow2") ∧
       n.device = "disk" ∧ (n.type_ = "file" ∨ n.type_ = "block")) := by
  unfold default_disk_filter
  constructor
  · intro h
    split_ifs at h with h1 h2 h3 h4
    rw [not_or, not_or, not_or] at h1
    obtain ⟨hs, hro, hsh, htr⟩ := h1
    rw [not_not] at h2
    rw [not_and_or, not_not, not_not] at h3
    exact ⟨hs, Bool.eq_false_iff.mpr hro, Bool.eq_false_iff.mpr hsh,
           Bool.eq_false_iff.mpr htr, h2, h3, h4.1, h4.2⟩
  · rintro ⟨hs, hro, hsh, htr, hdn, hdt, hdev, hty⟩
    rw [if_neg (by simp [hs, hro, hsh, htr]), if_neg (by simp [hdn]),
        if_neg (by rcases hdt with h | h <;> simp [h]), if_pos ⟨hdev, hty⟩]

/-- C7 witness: a fully eligible concrete disk is accepted. -/
theorem default_filter_c7_witness :
    default_disk_filter
      { target_dev := "vda", snapshot := "", readonly := false, shareable := false,
        transient := false, driver_name := "qemu", driver_type := "qcow2",
        device := "disk", type_ := "file", source_file := "/data/vm1.qcow2",
        source_block := "" } = true :=
  (default_filter_c7 _).mpr (by decide)

/-! ## C8: a present job status with end counter zero -/

/-- C8 counterexample: a present block-job status with both counters equal
to zero is not treated as no job; the loop issues the pivoting abort for
it (one abort call, disk recorded as pivoted), where the claim demands the
disk be finished with no abort call. -/

theorem end_zero_c8_counterexample :
    pollLoop (Except.ok ()) [PollResult.info (some (0, 0))] =
      { res := DiskRes.done true, aborts := 1 } := rfl

/-- C8 amended: only an absent job status makes the coordinator finish the
disk without a pivot; a present status whose end counter is zero is not
treated as no job: with current also zero the counters are equal and the
pivoting abort is issued, and with current nonzero the progress-ratio
computation raises ZeroDivisionError. -/
theorem end_zero_c8 (ar : Except Nat Unit) (rest : List PollResult) :
    ((pollLoop ar (PollResult.info (some (0, 0)) :: rest)).aborts = 1) ∧
    (∀ c, c ≠ 0 → pollLoop ar (PollResult.info (some (c, 0)) :: rest) =
        { res := DiskRes.fail PyError.zeroDivision, aborts := 0 }) ∧
    (pollLoop ar (PollResult.info none :: rest) =
        { res := DiskRes.done false, aborts := 0 }) := by
  refine ⟨?_, ?_, rfl⟩
  · cases ar <;> simp [pollLoop]
  · intro c hc
    simp [pollLoop, hc]

/-- C8 witness: the amended statement at a concrete nonzero current
counter. -/
theorem end_zero_c8_witness :
    pollLoop (Except.ok ()) [PollResult.info (some (3, 0))] =
      { res := DiskRes.fail PyError.zeroDivision, aborts := 0 } :=
  (end_zero_c8 (Except.ok ()) []).2.1 3 (by decide)

/-! ## C9: mutability of the injected disk selector -/

/-- C9 counterexample: on a transaction in stage INITIALIZED, assigning a
new disk selector does not raise; it succeeds and replaces the stored
selector, contrary to the claim that any stage from INITIALIZED on rejects
the assignment. -/
theorem disk_filter_setter_c9_counterexample :
    VMTransaction.set_disk_filter tInitializedC9 (some gFilterC9) =
      ({ tInitializedC9 with _disk_filter := some gFilterC9 }, none) := rfl

/-- C9 amended: the disk-selector assignment succeeds and replaces the
selector in stages UNINITIALIZED and INITIALIZED; in every other stage
(PREPARED, BEGUN, COMMITTING, FINISHED and FAILED) it raises BadStageError
and leaves the transaction unchanged. -/
theorem disk_filter_setter_c9 (t : VMTransaction) (f : Option (DiskNode → Bool)) :
    ((t._stage = TransactionStage.UNINITIALIZED ∨ t._stage = TransactionStage.INITIALIZED) →
      VMTransaction.set_disk_filter t f = ({ t with _disk_filter := f }, none)) ∧
    (t._stage ≠ TransactionStage.UNINITIALIZED → t._stage ≠ TransactionStage.INITIALIZED →
      VMTransaction.set_disk_filter t f =
        (t, some (PyError.badStageBetween t._stage TransactionStage.UNINITIALIZED
            TransactionStage.INITIALIZED))) := by
  rcases t with ⟨st, dom, wd, donly, q, df, dn, dxml, sxml, sflags, sro, dtree, stree, sdisks⟩
  cases st <;>
    refine ⟨fun h => ?_, fun h1 h2 => ?_⟩ <;>
    first
      | rfl
      | (rcases h with h | h <;> cases h)
      | (exact absurd rfl h1)
      | (exact absurd rfl h2)

/-- C9 witness: the amended statement at concrete inputs, both branches. -/
theorem disk_filter_setter_c9_witness :
    VMTransaction.set_disk_filter (newTransaction 0 none true false none) (some gFilterC9) =
      ({ newTransaction 0 none true false none with _disk_filter := some gFilterC9 }, none) ∧
    VMTransaction.set_disk_filter tFailedW (some gFilterC9) =
      (tFailedW, some (PyError.badStageBetween TransactionStage.FAILED
          TransactionStage.UNINITIALIZED TransactionStage.INITIALIZED)) :=
  ⟨(disk_filter_setter_c9 (newTransaction 0 none true false none) (some gFilterC9)).1
      (Or.inl rfl),
   (disk_filter_setter_c9 tFailedW (some gFilterC9)).2 (by decide) (by decide)⟩

/-! ## C10: inspection after failure -/

/-- C10: in stage FAILED every guarded accessor (domain_name, snapshot_xml,
snapshot_flags, snapshot_disks) raises BadStageError, because FAILED lies
below every accessor's required stage range, while stage and the
constructor-supplied configuration (domain, workdir, disk_only, quiesce,
disk_filter) stay readable as plain field reads. -/

theorem failed_inspection_c10 (t : VMTransaction) (h : t._stage = TransactionStage.FAILED) :
    VMTransaction.domain_name t = Except.error (PyError.badStageBetween TransactionStage.FAILED
        TransactionStage.INITIALIZED TransactionStage.FINISHED) ∧
    VMTransaction.snapshot_xml t = Except.error (PyError.badStageBetween TransactionStage.FAILED
        TransactionStage.PREPARED TransactionStage.FINISHED) ∧
    VMTransaction.snapshot_flags t = Except.error (PyError.badStageBetween TransactionStage.FAILED
        TransactionStage.PREPARED TransactionStage.FINISHED) ∧
    VMTransaction.snapshot_disks t = Except.error (PyError.badStageBetween TransactionStage.FAILED
        TransactionStage.PREPARED TransactionStage.FINISHED) ∧
    VMTransaction.stage t = TransactionStage.FAILED ∧
    VMTransaction.domain t = t._domain ∧
    VMTransaction.workdir t = t._workdir ∧
    VMTransaction.disk_only t = t._disk_only ∧
    VMTransaction.quiesce t = t._quiesce ∧
    VMTransaction.disk_filter t = t._disk_filter := by
  refine ⟨?_, ?_, ?_, ?_, h, rfl, rfl, rfl, rfl, rfl⟩ <;>
    simp [VMTransaction.domain_name, VMTransaction.snapshot_xml, VMTransaction.snapshot_flags,
          VMTransaction.snapshot_disks, VMTransaction.check_stage_between, h,
          TransactionStage.toInt]

/-- C10 witness: the accessors on a concrete FAILED transaction. -/
theorem failed_inspection_c10_witness :
    VMTransaction.domain_name tFailedW = Except.error (PyError.badStageBetween
        TransactionStage.FAILED TransactionStage.INITIALIZED TransactionStage.FINISHED) ∧
    VMTransaction.snapshot_disks tFailedW = Except.error (PyError.badStageBetween
        TransactionStage.FAILED TransactionStage.PREPARED TransactionStage.FINISHED) ∧
    VMTransaction.stage tFailedW = TransactionStage.FAILED :=
  ⟨(failed_inspection_c10 tFailedW rfl).1,
   (failed_inspection_c10 tFailedW rfl).2.2.2.1,
   (failed_inspection_c10 tFailedW rfl).2.2.2.2.1⟩
